import Mathlib

/-!
Shallow embedding of the bronze ingestion layer
(src/scripts/04.bronze_layer.py, class Bronze) and proofs about it.

The committed bronze tables are modelled as lists of rows; a row is a list
of (column name, rendered value) pairs.  The SQL filter strings that the
script passes to assert_count are modelled by a tiny filter language
covering exactly the filters the script uses: the literal true filter
(the Python default argument) and a column-equals-literal comparison.
-/

/-- A committed row: column name paired with its rendered value. -/
def Row : Type := List (String × String)

instance : DecidableEq Row := by
  unfold Row
  infer_instance

/-- Column lookup inside a row, first binding wins. -/
def getCol (r : Row) (c : String) : Option String :=
  (r.find? (fun p => p.1 == c)).map (fun p => p.2)

/-- The filter expressions the script passes to assert_count:
the default filter string true, and comparisons of the shape
topic=<literal> used by validate. -/
inductive RowFilter : Type
  | tru : RowFilter
  | eqStr : String → String → RowFilter
deriving DecidableEq

/-- Evaluation of a filter on a committed row, as the where clause does. -/
def evalFilter : RowFilter → Row → Bool
  | RowFilter.tru, _ => true
  | RowFilter.eqStr c v, r => getCol r c == some v

/-- Number of committed rows satisfying a filter:
spark.read.table(...).where(filter).count(). -/
def countWhere (rows : List Row) (f : RowFilter) : Nat :=
  (rows.filter (evalFilter f)).length

/-- The committed contents of the three bronze destination tables. -/
structure BronzeState : Type where
  registered_users_bz : List Row
  gym_logins_bz : List Row
  kafka_multiplex_bz : List Row
deriving DecidableEq

/-- Table lookup by name, as spark.read.table does for the three
destination tables of the bronze layer. -/
def readTable (st : BronzeState) : String → Option (List Row)
  | "registered_users_bz" => some st.registered_users_bz
  | "gym_logins_bz" => some st.gym_logins_bz
  | "kafka_multiplex_bz" => some st.kafka_multiplex_bz
  | _ => none

/-- Errors surfaced by the validation path.  countMismatch carries the
data of the Python assertion message: expected count, actual count, table
name and filter (lines 133-137 of 04.bronze_layer.py). -/
inductive BronzeError : Type
  | countMismatch : Int → Int → String → RowFilter → BronzeError
  | tableNotFound : String → BronzeError
deriving DecidableEq

/-- Bronze.assert_count: reads the table, counts rows under the filter and
fails with a count-mismatch error when the actual count differs from the
expected count (line 136).  The Python default for filter is the literal
string true; callers here pass RowFilter.tru explicitly. -/
def assert_count (st : BronzeState) (table_name : String) (expected_count : Int)
    (filter : RowFilter) : Except BronzeError Unit :=
  match readTable st table_name with
  | none => Except.error (BronzeError.tableNotFound table_name)
  | some rows =>
    if (countWhere rows filter : Int) = expected_count then Except.ok ()
    else Except.error
      (BronzeError.countMismatch expected_count (countWhere rows filter) table_name filter)

/-- Bronze.validate (lines 139-148): the fixed battery of five
assert_count calls, in source order, with the expected counts written
exactly as in the script. -/
def validate (st : BronzeState) (sets : Int) : Except BronzeError Unit := do
  assert_count st "registered_users_bz" (if sets = 1 then 5 else 10) RowFilter.tru
  assert_count st "gym_logins_bz" (if sets = 1 then 8 else 16) RowFilter.tru
  assert_count st "kafka_multiplex_bz" (if sets = 1 then 7 else 13)
    (RowFilter.eqStr "topic" "user_info")
  assert_count st "kafka_multiplex_bz" (if sets = 1 then 16 else 32)
    (RowFilter.eqStr "topic" "workout")
  assert_count st "kafka_multiplex_bz" (sets * 253801) (RowFilter.eqStr "topic" "bpm")

/-- One expectation of the validation battery: destination table, expected
count, row filter. -/
structure CheckSpec : Type where
  table : String
  expected : Int
  filter : RowFilter
deriving DecidableEq

/-- The battery validate runs, as data, in the source order and with the
source expected counts. -/
def validateChecks (sets : Int) : List CheckSpec :=
  [⟨"registered_users_bz", if sets = 1 then 5 else 10, RowFilter.tru⟩,
   ⟨"gym_logins_bz", if sets = 1 then 8 else 16, RowFilter.tru⟩,
   ⟨"kafka_multiplex_bz", if sets = 1 then 7 else 13, RowFilter.eqStr "topic" "user_info"⟩,
   ⟨"kafka_multiplex_bz", if sets = 1 then 16 else 32, RowFilter.eqStr "topic" "workout"⟩,
   ⟨"kafka_multiplex_bz", sets * 253801, RowFilter.eqStr "topic" "bpm"⟩]

/-- Run a list of expectations in order, stopping at the first failure. -/
def runChecks (st : BronzeState) : List CheckSpec → Except BronzeError Unit
  | [] => Except.ok ()
  | c :: cs =>
    match assert_count st c.table c.expected c.filter with
    | Except.ok _ => runChecks st cs
    | Except.error e => Except.error e

lemma validate_eq_runChecks (st : BronzeState) (sets : Int) :
    validate st sets = runChecks st (validateChecks sets) := by
  simp only [validate, validateChecks, runChecks, Bind.bind, Except.bind]
  cases assert_count st "registered_users_bz" (if sets = 1 then 5 else 10) RowFilter.tru with
  | error e => rfl
  | ok u =>
    cases assert_count st "gym_logins_bz" (if sets = 1 then 8 else 16) RowFilter.tru with
    | error e => rfl
    | ok u =>
      cases assert_count st "kafka_multiplex_bz" (if sets = 1 then 7 else 13)
          (RowFilter.eqStr "topic" "user_info") with
      | error e => rfl
      | ok u =>
        cases assert_count st "kafka_multiplex_bz" (if sets = 1 then 16 else 32)
            (RowFilter.eqStr "topic" "workout") with
        | error e => rfl
        | ok u =>
          cases assert_count st "kafka_multiplex_bz" (sets * 253801)
              (RowFilter.eqStr "topic" "bpm") with
          | error e => rfl
          | ok u => rfl

lemma countWhere_replicate (n : Nat) (r : Row) (f : RowFilter) :
    countWhere (List.replicate n r) f = if evalFilter f r then n else 0 := by
  simp only [countWhere, List.filter_replicate]
  split <;> simp

lemma countWhere_append (a b : List Row) (f : RowFilter) :
    countWhere (a ++ b) f = countWhere a f + countWhere b f := by
  simp [countWhere, List.filter_append]

/-- A registration row of the shape declared in the schema string of
consume_user_registrations. -/
def regRow : Row :=
  [("user_id", "1"), ("device_id", "1"), ("mac_address", "aa"),
   ("registration_timestamp", "0")]

/-- A gym-login row of the shape declared in the schema string of
consume_gym_logins. -/
def gymRow : Row :=
  [("mac_address", "aa"), ("gym", "1"), ("login", "0"), ("logout", "0")]

/-- A multiplexed row with the given topic, of the shape declared in the
schema string of consume_kafka_multiplex. -/
def kafkaRow (t : String) : Row :=
  [("key", "k"), ("value", "v"), ("topic", t), ("partition", "0"),
   ("offset", "0"), ("timestamp", "0")]

/-- The committed bronze state of the end-to-end scenario: one data
generation set, so 5 registrations, 8 logins, and 7 user_info, 16 workout
and 253801 bpm events in the multiplexed table. -/
def oneSetState : BronzeState :=
  { registered_users_bz := List.replicate 5 regRow,
    gym_logins_bz := List.replicate 8 gymRow,
    kafka_multiplex_bz :=
      List.replicate 7 (kafkaRow "user_info") ++ List.replicate 16 (kafkaRow "workout")
        ++ List.replicate 253801 (kafkaRow "bpm") }

lemma evalFilter_topic_kafkaRow (v t : String) :
    evalFilter (RowFilter.eqStr "topic" v) (kafkaRow t) = (t == v) := by
  simp [evalFilter, kafkaRow, getCol, List.find?]

lemma oneSet_count_reg : countWhere oneSetState.registered_users_bz RowFilter.tru = 5 := by
  show countWhere (List.replicate 5 regRow) RowFilter.tru = 5
  rw [countWhere_replicate]
  simp [evalFilter]

lemma oneSet_count_gym : countWhere oneSetState.gym_logins_bz RowFilter.tru = 8 := by
  show countWhere (List.replicate 8 gymRow) RowFilter.tru = 8
  rw [countWhere_replicate]
  simp [evalFilter]

lemma oneSet_count_topic (v : String) :
    countWhere oneSetState.kafka_multiplex_bz (RowFilter.eqStr "topic" v)
      = ((if ("user_info" == v) then 7 else 0) + if ("workout" == v) then 16 else 0)
        + (if ("bpm" == v) then 253801 else 0) := by
  show countWhere
      (List.replicate 7 (kafkaRow "user_info") ++ List.replicate 16 (kafkaRow "workout")
        ++ List.replicate 253801 (kafkaRow "bpm")) (RowFilter.eqStr "topic" v) = _
  rw [countWhere_append, countWhere_append, countWhere_replicate, countWhere_replicate,
    countWhere_replicate, evalFilter_topic_kafkaRow, evalFilter_topic_kafkaRow,
    evalFilter_topic_kafkaRow]

lemma oneSet_count_user_info :
    countWhere oneSetState.kafka_multiplex_bz (RowFilter.eqStr "topic" "user_info") = 7 := by
  rw [oneSet_count_topic]
  decide

lemma oneSet_count_workout :
    countWhere oneSetState.kafka_multiplex_bz (RowFilter.eqStr "topic" "workout") = 16 := by
  rw [oneSet_count_topic]
  decide

lemma oneSet_count_bpm :
    countWhere oneSetState.kafka_multiplex_bz (RowFilter.eqStr "topic" "bpm") = 253801 := by
  rw [oneSet_count_topic]
  decide

lemma assert_count_eq (st : BronzeState) (t : String) (e : Int) (f : RowFilter)
    (rows : List Row) (h : readTable st t = some rows) :
    assert_count st t e f =
      if (countWhere rows f : Int) = e then Except.ok ()
      else Except.error (BronzeError.countMismatch e (countWhere rows f) t f) := by
  simp [assert_count, h]

lemma runChecks_cons_ok (st : BronzeState) (c : CheckSpec) (cs : List CheckSpec)
    (h : assert_count st c.table c.expected c.filter = Except.ok ()) :
    runChecks st (c :: cs) = runChecks st cs := by
  simp [runChecks, h]

lemma runChecks_cons_error (st : BronzeState) (c : CheckSpec) (cs : List CheckSpec)
    (e : BronzeError) (h : assert_count st c.table c.expected c.filter = Except.error e) :
    runChecks st (c :: cs) = Except.error e := by
  simp [runChecks, h]

lemma ac_oneSet_reg : assert_count oneSetState "registered_users_bz" 5 RowFilter.tru
    = Except.ok () := by
  rw [assert_count_eq oneSetState "registered_users_bz" 5 RowFilter.tru
    oneSetState.registered_users_bz rfl, oneSet_count_reg]
  norm_num

lemma ac_oneSet_gym : assert_count oneSetState "gym_logins_bz" 8 RowFilter.tru
    = Except.ok () := by
  rw [assert_count_eq oneSetState "gym_logins_bz" 8 RowFilter.tru
    oneSetState.gym_logins_bz rfl, oneSet_count_gym]
  norm_num

lemma ac_oneSet_user_info : assert_count oneSetState "kafka_multiplex_bz" 7
    (RowFilter.eqStr "topic" "user_info") = Except.ok () := by
  rw [assert_count_eq oneSetState "kafka_multiplex_bz" 7 (RowFilter.eqStr "topic" "user_info")
    oneSetState.kafka_multiplex_bz rfl, oneSet_count_user_info]
  norm_num

lemma ac_oneSet_workout : assert_count oneSetState "kafka_multiplex_bz" 16
    (RowFilter.eqStr "topic" "workout") = Except.ok () := by
  rw [assert_count_eq oneSetState "kafka_multiplex_bz" 16 (RowFilter.eqStr "topic" "workout")
    oneSetState.kafka_multiplex_bz rfl, oneSet_count_workout]
  norm_num

lemma ac_oneSet_bpm : assert_count oneSetState "kafka_multiplex_bz" 253801
    (RowFilter.eqStr "topic" "bpm") = Except.ok () := by
  rw [assert_count_eq oneSetState "kafka_multiplex_bz" 253801 (RowFilter.eqStr "topic" "bpm")
    oneSetState.kafka_multiplex_bz rfl, oneSet_count_bpm]
  norm_num

lemma ac_oneSet_reg_10 : assert_count oneSetState "registered_users_bz" 10 RowFilter.tru
    = Except.error (BronzeError.countMismatch 10 5 "registered_users_bz" RowFilter.tru) := by
  rw [assert_count_eq oneSetState "registered_users_bz" 10 RowFilter.tru
    oneSetState.registered_users_bz rfl, oneSet_count_reg]
  norm_num

lemma validateChecks_one : validateChecks 1 =
    [⟨"registered_users_bz", 5, RowFilter.tru⟩,
     ⟨"gym_logins_bz", 8, RowFilter.tru⟩,
     ⟨"kafka_multiplex_bz", 7, RowFilter.eqStr "topic" "user_info"⟩,
     ⟨"kafka_multiplex_bz", 16, RowFilter.eqStr "topic" "workout"⟩,
     ⟨"kafka_multiplex_bz", 253801, RowFilter.eqStr "topic" "bpm"⟩] := by
  norm_num [validateChecks]

lemma validateChecks_two : validateChecks 2 =
    [⟨"registered_users_bz", 10, RowFilter.tru⟩,
     ⟨"gym_logins_bz", 16, RowFilter.tru⟩,
     ⟨"kafka_multiplex_bz", 13, RowFilter.eqStr "topic" "user_info"⟩,
     ⟨"kafka_multiplex_bz", 32, RowFilter.eqStr "topic" "workout"⟩,
     ⟨"kafka_multiplex_bz", 507602, RowFilter.eqStr "topic" "bpm"⟩] := by
  norm_num [validateChecks]

/-- C1: on the committed bronze state of the end-to-end scenario (5
registrations, 8 logins, and 7 user_info, 16 workout, 253801 bpm events),
validate 1 completes without raising, and validate 2 against the same
single-set state fails with a count-mismatch error whose reported expected
count, 10, is double the reported actual count, 5. -/
theorem c1_end_to_end_validate :
    validate oneSetState 1 = Except.ok ()
    ∧ validate oneSetState 2
        = Except.error (BronzeError.countMismatch 10 5 "registered_users_bz" RowFilter.tru)
    ∧ (10 : Int) = 2 * 5 := by
  refine ⟨?_, ?_, by norm_num⟩
  · rw [validate_eq_runChecks, validateChecks_one,
      runChecks_cons_ok oneSetState ⟨"registered_users_bz", 5, RowFilter.tru⟩ _ ac_oneSet_reg,
      runChecks_cons_ok oneSetState ⟨"gym_logins_bz", 8, RowFilter.tru⟩ _ ac_oneSet_gym,
      runChecks_cons_ok oneSetState
        ⟨"kafka_multiplex_bz", 7, RowFilter.eqStr "topic" "user_info"⟩ _ ac_oneSet_user_info,
      runChecks_cons_ok oneSetState
        ⟨"kafka_multiplex_bz", 16, RowFilter.eqStr "topic" "workout"⟩ _ ac_oneSet_workout,
      runChecks_cons_ok oneSetState
        ⟨"kafka_multiplex_bz", 253801, RowFilter.eqStr "topic" "bpm"⟩ _ ac_oneSet_bpm,
      runChecks]
  · rw [validate_eq_runChecks, validateChecks_two,
      runChecks_cons_error oneSetState ⟨"registered_users_bz", 10, RowFilter.tru⟩ _ _
        ac_oneSet_reg_10]

/-- A committed bronze state with exactly the single-set counts scaled by
two: 10 registrations, 16 logins, 14 user_info, 32 workout and 507602 bpm
events. -/
def twoSetState : BronzeState :=
  { registered_users_bz := List.replicate 10 regRow,
    gym_logins_bz := List.replicate 16 gymRow,
    kafka_multiplex_bz :=
      List.replicate 14 (kafkaRow "user_info") ++ List.replicate 32 (kafkaRow "workout")
        ++ List.replicate 507602 (kafkaRow "bpm") }

lemma twoSet_count_reg : countWhere twoSetState.registered_users_bz RowFilter.tru = 10 := by
  show countWhere (List.replicate 10 regRow) RowFilter.tru = 10
  rw [countWhere_replicate]
  simp [evalFilter]

lemma twoSet_count_gym : countWhere twoSetState.gym_logins_bz RowFilter.tru = 16 := by
  show countWhere (List.replicate 16 gymRow) RowFilter.tru = 16
  rw [countWhere_replicate]
  simp [evalFilter]

lemma twoSet_count_user_info :
    countWhere twoSetState.kafka_multiplex_bz (RowFilter.eqStr "topic" "user_info") = 14 := by
  show countWhere
      (List.replicate 14 (kafkaRow "user_info") ++ List.replicate 32 (kafkaRow "workout")
        ++ List.replicate 507602 (kafkaRow "bpm")) (RowFilter.eqStr "topic" "user_info") = 14
  rw [countWhere_append, countWhere_append, countWhere_replicate, countWhere_replicate,
    countWhere_replicate, evalFilter_topic_kafkaRow, evalFilter_topic_kafkaRow,
    evalFilter_topic_kafkaRow]
  decide

lemma ac_twoSet_reg : assert_count twoSetState "registered_users_bz" 10 RowFilter.tru
    = Except.ok () := by
  rw [assert_count_eq twoSetState "registered_users_bz" 10 RowFilter.tru
    twoSetState.registered_users_bz rfl, twoSet_count_reg]
  norm_num

lemma ac_twoSet_gym : assert_count twoSetState "gym_logins_bz" 16 RowFilter.tru
    = Except.ok () := by
  rw [assert_count_eq twoSetState "gym_logins_bz" 16 RowFilter.tru
    twoSetState.gym_logins_bz rfl, twoSet_count_gym]
  norm_num

lemma ac_twoSet_user_info_13 : assert_count twoSetState "kafka_multiplex_bz" 13
    (RowFilter.eqStr "topic" "user_info")
    = Except.error (BronzeError.countMismatch 13 14 "kafka_multiplex_bz"
        (RowFilter.eqStr "topic" "user_info")) := by
  rw [assert_count_eq twoSetState "kafka_multiplex_bz" 13 (RowFilter.eqStr "topic" "user_info")
    twoSetState.kafka_multiplex_bz rfl, twoSet_count_user_info]
  norm_num

/-- C4 counterexample: on a committed state holding exactly the single-set
counts scaled by two (in particular 2 * 7 = 14 user_info events), validate
run with multiplier 2 raises a count mismatch whose expected count is 13,
not the scaled 2 * 7 — so the battery is not scaled by the multiplier. -/
theorem c4_scaling_counterexample :
    validate twoSetState 2
      = Except.error (BronzeError.countMismatch 13 14 "kafka_multiplex_bz"
          (RowFilter.eqStr "topic" "user_info"))
    ∧ countWhere twoSetState.kafka_multiplex_bz (RowFilter.eqStr "topic" "user_info") = 2 * 7
    ∧ (13 : Int) ≠ 2 * 7 := by
  refine ⟨?_, by rw [twoSet_count_user_info], by norm_num⟩
  rw [validate_eq_runChecks, validateChecks_two,
    runChecks_cons_ok twoSetState ⟨"registered_users_bz", 10, RowFilter.tru⟩ _ ac_twoSet_reg,
    runChecks_cons_ok twoSetState ⟨"gym_logins_bz", 16, RowFilter.tru⟩ _ ac_twoSet_gym,
    runChecks_cons_error twoSetState
      ⟨"kafka_multiplex_bz", 13, RowFilter.eqStr "topic" "user_info"⟩ _ _ ac_twoSet_user_info_13]

lemma runChecks_error_iff (st : BronzeState) (cs : List CheckSpec) (e : BronzeError) :
    runChecks st cs = Except.error e ↔
      ∃ l c r, cs = l ++ c :: r
        ∧ (∀ d ∈ l, assert_count st d.table d.expected d.filter = Except.ok ())
        ∧ assert_count st c.table c.expected c.filter = Except.error e := by
  induction cs with
  | nil =>
    constructor
    · intro h
      exact absurd h (by simp [runChecks])
    · rintro ⟨l, c, r, hnil, -, -⟩
      cases l with
      | nil => exact absurd hnil (by simp)
      | cons a l2 => exact absurd hnil (by simp)
  | cons c cs ih =>
    constructor
    · intro hrun
      rw [runChecks] at hrun
      cases h : assert_count st c.table c.expected c.filter with
      | ok u =>
        cases u
        rw [h] at hrun
        obtain ⟨l, d, r, hcs, hl, hd⟩ := ih.mp hrun
        refine ⟨c :: l, d, r, by rw [hcs]; rfl, ?_, hd⟩
        intro x hx
        rcases List.mem_cons.mp hx with hx1 | hx2
        · rw [hx1]; exact h
        · exact hl x hx2
      | error e2 =>
        rw [h] at hrun
        have he : e2 = e := by
          have hrun2 : (Except.error e2 : Except BronzeError Unit) = Except.error e := hrun
          injection hrun2
        refine ⟨[], c, cs, rfl, ?_, by rw [h, he]⟩
        intro d hd
        exact absurd hd (by simp)
    · rintro ⟨l, d, r, hcs, hl, hd⟩
      cases l with
      | nil =>
        simp only [List.nil_append] at hcs
        injection hcs with h1 h2
        subst h1
        subst h2
        rw [runChecks, hd]
      | cons a l2 =>
        simp only [List.cons_append] at hcs
        injection hcs with h1 h2
        subst h1
        subst h2
        have ha : assert_count st c.table c.expected c.filter = Except.ok () :=
          hl c (List.mem_cons_self c l2)
        rw [runChecks, ha]
        exact ih.mpr ⟨l2, d, r, rfl, fun x hx => hl x (List.mem_cons_of_mem c hx), hd⟩

/-- C4 (amended): validate runs the fixed five-expectation battery in
source order with the piecewise expected counts of validateChecks (fixed
values for the first four expectations, sets * 253801 for the bpm one),
and it raises exactly the error of the first expectation whose actual
count differs from its expected count, with every earlier expectation
passing and the later ones never examined. -/
theorem c4_validate_first_mismatch (st : BronzeState) (sets : Int) :
    validate st sets = runChecks st (validateChecks sets)
    ∧ ∀ e, validate st sets = Except.error e ↔
        ∃ l c r, validateChecks sets = l ++ c :: r
          ∧ (∀ d ∈ l, assert_count st d.table d.expected d.filter = Except.ok ())
          ∧ assert_count st c.table c.expected c.filter = Except.error e := by
  refine ⟨validate_eq_runChecks st sets, fun e => ?_⟩
  rw [validate_eq_runChecks st sets]
  exact runChecks_error_iff st (validateChecks sets) e

/-- C10: for every multiplier other than 1, validate runs with the same
fixed expected counts for the first four expectations — 10, 16, 13 and 32
— and only the bpm expectation scales as sets * 253801. -/
theorem c10_validate_fixed_counts (sets : Int) (h : sets ≠ 1) (st : BronzeState) :
    validate st sets = runChecks st
      [⟨"registered_users_bz", 10, RowFilter.tru⟩,
       ⟨"gym_logins_bz", 16, RowFilter.tru⟩,
       ⟨"kafka_multiplex_bz", 13, RowFilter.eqStr "topic" "user_info"⟩,
       ⟨"kafka_multiplex_bz", 32, RowFilter.eqStr "topic" "workout"⟩,
       ⟨"kafka_multiplex_bz", sets * 253801, RowFilter.eqStr "topic" "bpm"⟩] := by
  rw [validate_eq_runChecks st sets]
  congr 1
  simp [validateChecks, h]

/-- C10 witness: the fixed-count battery at the concrete multiplier 2. -/
theorem c10_validate_fixed_counts_witness :
    validate oneSetState 2 = runChecks oneSetState
      [⟨"registered_users_bz", 10, RowFilter.tru⟩,
       ⟨"gym_logins_bz", 16, RowFilter.tru⟩,
       ⟨"kafka_multiplex_bz", 13, RowFilter.eqStr "topic" "user_info"⟩,
       ⟨"kafka_multiplex_bz", 32, RowFilter.eqStr "topic" "workout"⟩,
       ⟨"kafka_multiplex_bz", 2 * 253801, RowFilter.eqStr "topic" "bpm"⟩] :=
  c10_validate_fixed_counts 2 (by norm_num) oneSetState

/-- C3: with the table present in the committed state, assert_count fails
with the count-mismatch error carrying the expected count, the actual
count, the table name and the filter exactly when the committed row count
under the filter differs from the expected count, and returns normally
exactly when the two counts agree. -/
theorem c3_assert_count_iff (st : BronzeState) (t : String) (e : Int) (f : RowFilter)
    (rows : List Row) (h : readTable st t = some rows) :
    (assert_count st t e f
        = Except.error (BronzeError.countMismatch e (countWhere rows f) t f)
      ↔ (countWhere rows f : Int) ≠ e)
    ∧ (assert_count st t e f = Except.ok () ↔ (countWhere rows f : Int) = e) := by
  rw [assert_count_eq st t e f rows h]
  by_cases hc : (countWhere rows f : Int) = e
  · simp [hc]
  · simp [hc]

/-- C3 witness: assert_count instantiated on the gym-login table of the
concrete one-set state. -/
theorem c3_assert_count_iff_witness :
    (assert_count oneSetState "gym_logins_bz" 8 RowFilter.tru
        = Except.error (BronzeError.countMismatch 8
            (countWhere oneSetState.gym_logins_bz RowFilter.tru) "gym_logins_bz" RowFilter.tru)
      ↔ (countWhere oneSetState.gym_logins_bz RowFilter.tru : Int) ≠ 8)
    ∧ (assert_count oneSetState "gym_logins_bz" 8 RowFilter.tru = Except.ok ()
      ↔ (countWhere oneSetState.gym_logins_bz RowFilter.tru : Int) = 8) :=
  c3_assert_count_iff oneSetState "gym_logins_bz" 8 RowFilter.tru
    oneSetState.gym_logins_bz rfl

/-- Modelled from the spec: the static configuration object produced by
Config() in 01.config (that notebook is not part of src/); only the three
fields the Bronze class reads are modelled: base_dir_data,
base_dir_checkpoint and db_name. -/
structure SparkConf : Type where
  base_dir_data : String
  base_dir_checkpoint : String
  db_name : String
deriving DecidableEq

/-- The state built by Bronze.__init__ (lines 7-13): catalog is the env
argument, landing_zone and checkpoint_base are derived from the
configuration object. -/
structure BronzeInit : Type where
  catalog : String
  landing_zone : String
  checkpoint_base : String
  db_name : String
deriving DecidableEq

/-- Bronze.__init__. -/
def bronzeInit (conf : SparkConf) (env : String) : BronzeInit :=
  { catalog := env,
    landing_zone := conf.base_dir_data ++ "/raw",
    checkpoint_base := conf.base_dir_checkpoint ++ "/checkpoint",
    db_name := conf.db_name }

/-- The trigger configured on a stream writer: availableNow=True in batch
mode, processingTime=<interval> otherwise. -/
inductive SinkTrigger : Type
  | availableNow : SinkTrigger
  | processingTime : String → SinkTrigger
deriving DecidableEq

/-- Spark withColumn on a flat schema: adds the column name when it is not
already present. -/
def withColumn (cols : List String) (c : String) : List String :=
  if c ∈ cols then cols else cols ++ [c]

/-- The statically determined description of one ingestion pipeline as the
three consume_* methods configure it: input location and format, source
schema columns, output columns after the withColumn and join stages,
checkpoint location, output mode, query name, scheduler pool, trigger and
destination table. -/
structure PipelineDesc : Type where
  inputPath : String
  inputFormat : String
  sourceFields : List String
  outputColumns : List String
  checkpointLocation : String
  outputMode : String
  queryName : String
  schedulerPool : String
  trigger : SinkTrigger
  destTable : String
deriving DecidableEq

/-- The Python-level errors the Bronze methods can raise before any
pipeline work happens: a failing from-import, a miscalled builder method,
and a failing attribute lookup. -/
inductive PyError : Type
  | importError : String → String → PyError
  | typeError : String → PyError
  | attributeError : String → String → PyError
deriving DecidableEq

/-- The exported names of the module pyspark.sql.functions that matter
here: the module exports column helpers such as these, but no name F (the
working idiom imports the module itself under the alias F). -/
def pysparkSqlFunctionsExports : List String :=
  ["col", "lit", "to_date", "broadcast", "current_timestamp", "input_file_name"]

/-- A Python from-import: succeeds when the requested name is among the
module exports and raises ImportError otherwise. -/
def pyImportFrom (module : String) (name : String) (exports : List String) :
    Except PyError Unit :=
  if name ∈ exports then Except.ok ()
  else Except.error (PyError.importError module name)

/-- Line 22: .option(schema) passes DataStreamReader.option one positional
argument where a key and a value are required, so the call raises
TypeError and the registrations schema string is never declared. -/
def optionWithSingleArgument (arg : String) : Except PyError Unit :=
  Except.error (PyError.typeError
    ("option requires a key and a value but got the single argument " ++ arg))

/-- The pipeline configuration the body of consume_user_registrations
writes out (lines 17-47): landing path, the schema fields of the line 17
schema string (which line 22 fails to declare), the load_time and
source_file columns, checkpoint location, query name, scheduler pool,
trigger and destination table.  Unreachable at run time: line 16 raises
before any of it is evaluated. -/
def userRegistrationsPlan (b : BronzeInit) (once : Bool) (processing_time : String) :
    PipelineDesc :=
  { inputPath := b.landing_zone ++ "/registered_users_bz",
    inputFormat := "csv",
    sourceFields := ["user_id", "device_id", "mac_address", "registration_timestamp"],
    outputColumns := withColumn (withColumn
      ["user_id", "device_id", "mac_address", "registration_timestamp"] "load_time")
      "source_file",
    checkpointLocation := b.checkpoint_base ++ "/registered_users_bz",
    outputMode := "append",
    queryName := "registered_users_bz_ingestion_stream",
    schedulerPool := "bronze_p2",
    trigger := if once then SinkTrigger.availableNow
      else SinkTrigger.processingTime processing_time,
    destTable := b.catalog ++ "." ++ b.db_name ++ ".registered_users_bz" }

/-- The pipeline configuration the body of consume_gym_logins writes out
(lines 51-82); here line 56 does declare the schema.  Unreachable at run
time: line 50 raises before any of it is evaluated. -/
def gymLoginsPlan (b : BronzeInit) (once : Bool) (processing_time : String) :
    PipelineDesc :=
  { inputPath := b.landing_zone ++ "/gym_logins_bz",
    inputFormat := "csv",
    sourceFields := ["mac_address", "gym", "login", "logout"],
    outputColumns := withColumn (withColumn
      ["mac_address", "gym", "login", "logout"] "load_time") "source_file",
    checkpointLocation := b.checkpoint_base ++ "/gym_logins_bz",
    outputMode := "append",
    queryName := "gym_logins_bz_ingestion_stream",
    schedulerPool := "bronze_p2",
    trigger := if once then SinkTrigger.availableNow
      else SinkTrigger.processingTime processing_time,
    destTable := b.catalog ++ "." ++ b.db_name ++ ".gym_logins_bz" }

/-- The pipeline configuration the body of consume_kafka_multiplex writes
out (lines 86-118).  The topic parameter is accepted and, as in the
source, never used; the left join against date_lookup appends the two
selected lookup columns date and week_part.  Unreachable at run time:
line 85 raises before any of it is evaluated. -/
def kafkaMultiplexPlan (b : BronzeInit) (topic : String) (once : Bool)
    (processing_time : String) : PipelineDesc :=
  { inputPath := b.landing_zone ++ "/kafka_multiplex_bz",
    inputFormat := "json",
    sourceFields := ["key", "value", "topic", "partition", "offset", "timestamp"],
    outputColumns := (withColumn (withColumn
      ["key", "value", "topic", "partition", "offset", "timestamp"] "load_time")
      "source_file") ++ ["date", "week_part"],
    checkpointLocation := b.checkpoint_base ++ "/kafka_multiplex_bz",
    outputMode := "append",
    queryName := "kafka_multiplex_bz_ingestion_stream",
    schedulerPool := "bronze_p1",
    trigger := if once then SinkTrigger.availableNow
      else SinkTrigger.processingTime processing_time,
    destTable := b.catalog ++ "." ++ b.db_name ++ ".kafka_multiplex_bz" }

/-- Bronze.consume_user_registrations (lines 15-47): the first statement,
from pyspark.sql.functions import F (line 16), raises ImportError because
the module exports no name F, so every call fails before the reader is
configured; were it reached, line 22 would raise TypeError, and only after
that would the configuration of userRegistrationsPlan be built. -/
def consume_user_registrations (b : BronzeInit) (once : Bool) (processing_time : String) :
    Except PyError PipelineDesc := do
  pyImportFrom "pyspark.sql.functions" "F" pysparkSqlFunctionsExports
  optionWithSingleArgument
    "user_id long, device_id long, mac_address string, registration_timestamp double"
  pure (userRegistrationsPlan b once processing_time)

/-- Bronze.consume_gym_logins (lines 49-82): the first statement (line 50)
raises ImportError on every call, before the configuration of
gymLoginsPlan would be built. -/
def consume_gym_logins (b : BronzeInit) (once : Bool) (processing_time : String) :
    Except PyError PipelineDesc := do
  pyImportFrom "pyspark.sql.functions" "F" pysparkSqlFunctionsExports
  pure (gymLoginsPlan b once processing_time)

/-- Bronze.consume_kafka_multiplex (lines 84-118): the first statement
(line 85) raises ImportError on every call, before the configuration of
kafkaMultiplexPlan would be built. -/
def consume_kafka_multiplex (b : BronzeInit) (topic : String) (once : Bool)
    (processing_time : String) : Except PyError PipelineDesc := do
  pyImportFrom "pyspark.sql.functions" "F" pysparkSqlFunctionsExports
  pure (kafkaMultiplexPlan b topic once processing_time)

lemma append_ne_append_of_length_ne (a s t : String) (h : s.length ≠ t.length) :
    a ++ s ≠ a ++ t := by
  intro heq
  have hlen := congrArg String.length heq
  rw [String.length_append, String.length_append] at hlen
  omega

/-- C5 (code bug): every consume_* call raises ImportError at its first
statement, before any checkpoint location is configured, so no checkpoint
is ever set; the checkpoint locations the three method bodies write out
are nevertheless pairwise distinct for every configuration object,
environment, run mode and interval, as the claim intends. -/
theorem c5_checkpoint_locations_code_bug (conf : SparkConf) (env topic : String)
    (o1 o2 o3 : Bool) (p1 p2 p3 : String) :
    consume_user_registrations (bronzeInit conf env) o1 p1
      = Except.error (PyError.importError "pyspark.sql.functions" "F")
    ∧ consume_gym_logins (bronzeInit conf env) o2 p2
      = Except.error (PyError.importError "pyspark.sql.functions" "F")
    ∧ consume_kafka_multiplex (bronzeInit conf env) topic o3 p3
      = Except.error (PyError.importError "pyspark.sql.functions" "F")
    ∧ (userRegistrationsPlan (bronzeInit conf env) o1 p1).checkpointLocation
      ≠ (gymLoginsPlan (bronzeInit conf env) o2 p2).checkpointLocation
    ∧ (userRegistrationsPlan (bronzeInit conf env) o1 p1).checkpointLocation
      ≠ (kafkaMultiplexPlan (bronzeInit conf env) topic o3 p3).checkpointLocation
    ∧ (gymLoginsPlan (bronzeInit conf env) o2 p2).checkpointLocation
      ≠ (kafkaMultiplexPlan (bronzeInit conf env) topic o3 p3).checkpointLocation := by
  refine ⟨rfl, rfl, rfl, ?_, ?_, ?_⟩
  · exact append_ne_append_of_length_ne _ _ _ (by decide)
  · exact append_ne_append_of_length_ne _ _ _ (by decide)
  · exact append_ne_append_of_length_ne _ _ _ (by decide)

/-- C7 (code bug): every consume_* call raises ImportError before the
withColumn stages run, so no row is ever written (and line 22 additionally
fails to declare the registrations schema); the configurations the method
bodies write out do carry the source schema fields plus load_time and
source_file, with date and week_part besides for the multiplexed
pipeline, as the claim intends. -/
theorem c7_output_columns_code_bug (b : BronzeInit) (topic : String) (once : Bool)
    (pt : String) :
    consume_user_registrations b once pt
      = Except.error (PyError.importError "pyspark.sql.functions" "F")
    ∧ consume_gym_logins b once pt
      = Except.error (PyError.importError "pyspark.sql.functions" "F")
    ∧ consume_kafka_multiplex b topic once pt
      = Except.error (PyError.importError "pyspark.sql.functions" "F")
    ∧ (userRegistrationsPlan b once pt).outputColumns
      = (userRegistrationsPlan b once pt).sourceFields ++ ["load_time", "source_file"]
    ∧ (gymLoginsPlan b once pt).outputColumns
      = (gymLoginsPlan b once pt).sourceFields ++ ["load_time", "source_file"]
    ∧ (kafkaMultiplexPlan b topic once pt).outputColumns
      = (kafkaMultiplexPlan b topic once pt).sourceFields
          ++ ["load_time", "source_file"] ++ ["date", "week_part"] := by
  refine ⟨rfl, rfl, rfl, ?_, ?_, ?_⟩ <;> simp [userRegistrationsPlan, gymLoginsPlan,
    kafkaMultiplexPlan, withColumn]

/-- C8 (code bug): every consume_* call raises ImportError at its first
statement, so the trigger branch is never reached and no write is ever
configured; the trigger configuration the method bodies write out does
use availableNow when once is true and processingTime with the given
interval otherwise, as the claim intends. -/
theorem c8_trigger_modes_code_bug (b : BronzeInit) (topic : String) (once : Bool)
    (pt : String) :
    consume_user_registrations b once pt
      = Except.error (PyError.importError "pyspark.sql.functions" "F")
    ∧ consume_gym_logins b once pt
      = Except.error (PyError.importError "pyspark.sql.functions" "F")
    ∧ consume_kafka_multiplex b topic once pt
      = Except.error (PyError.importError "pyspark.sql.functions" "F")
    ∧ (userRegistrationsPlan b true pt).trigger = SinkTrigger.availableNow
    ∧ (userRegistrationsPlan b false pt).trigger = SinkTrigger.processingTime pt
    ∧ (gymLoginsPlan b true pt).trigger = SinkTrigger.availableNow
    ∧ (gymLoginsPlan b false pt).trigger = SinkTrigger.processingTime pt
    ∧ (kafkaMultiplexPlan b topic true pt).trigger = SinkTrigger.availableNow
    ∧ (kafkaMultiplexPlan b topic false pt).trigger = SinkTrigger.processingTime pt := by
  refine ⟨rfl, rfl, rfl, ?_, ?_, ?_, ?_, ?_, ?_⟩ <;> simp [userRegistrationsPlan,
    gymLoginsPlan, kafkaMultiplexPlan]

/-- A multiplexed record at the point of the date_lookup join, after the
load_time and source_file columns were added (lines 91-99). -/
structure KafkaRecord : Type where
  key : String
  value : String
  topic : String
  partition : Int
  offset : Int
  timestamp : Int
  load_time : Int
  source_file : String
deriving DecidableEq

/-- A row of the date_lookup reference table restricted to the two
selected columns (line 88); the date is a day index. -/
structure DateLookupRow : Type where
  date : Int
  week_part : String
deriving DecidableEq

/-- A multiplexed record after the enrichment join: the two lookup columns
are null when no reference row matched. -/
structure EnrichedKafkaRecord : Type where
  record : KafkaRecord
  date : Option Int
  week_part : Option String
deriving DecidableEq

/-- The join key of line 102: the timestamp is in epoch milliseconds, is
divided by 1000 into seconds, cast to a timestamp and floored to a day by
to_date; modelled as the day index of the timestamp. -/
def toDateFromEpochMillis (ts : Int) : Int :=
  ts / 1000 / 86400

/-- The contribution of one record to the left outer join against the
date_lookup snapshot: one enriched output per matching reference row, or a
single null-enriched output when no reference row matches. -/
def enrichOne (lookup : List DateLookupRow) (r : KafkaRecord) : List EnrichedKafkaRecord :=
  match lookup.filter (fun l => toDateFromEpochMillis r.timestamp == l.date) with
  | [] => [{ record := r, date := none, week_part := none }]
  | ms => ms.map (fun l => { record := r, date := some l.date, week_part := some l.week_part })

/-- The left outer join of line 101-103, record by record in input
order. -/
def leftJoinDateLookup (records : List KafkaRecord) (lookup : List DateLookupRow) :
    List EnrichedKafkaRecord :=
  match records with
  | [] => []
  | r :: rs => enrichOne lookup r ++ leftJoinDateLookup rs lookup

lemma enrichOne_mem_leftJoin (records : List KafkaRecord) (lookup : List DateLookupRow)
    (r : KafkaRecord) (hr : r ∈ records) (e : EnrichedKafkaRecord)
    (he : e ∈ enrichOne lookup r) : e ∈ leftJoinDateLookup records lookup := by
  induction records with
  | nil => exact absurd hr (by simp)
  | cons a rs ih =>
    rw [leftJoinDateLookup]
    rcases List.mem_cons.mp hr with h1 | h2
    · subst h1
      exact List.mem_append_left _ he
    · exact List.mem_append_right _ (ih h2)

lemma enrichOne_matched (lookup : List DateLookupRow) (r : KafkaRecord)
    (l : DateLookupRow) (hl : l ∈ lookup) (hd : l.date = toDateFromEpochMillis r.timestamp) :
    ({ record := r, date := some l.date, week_part := some l.week_part } : EnrichedKafkaRecord)
      ∈ enrichOne lookup r := by
  have hmem : l ∈ lookup.filter (fun x => toDateFromEpochMillis r.timestamp == x.date) := by
    rw [List.mem_filter]
    exact ⟨hl, by rw [beq_iff_eq, hd]⟩
  rw [enrichOne]
  cases hf : lookup.filter (fun x => toDateFromEpochMillis r.timestamp == x.date) with
  | nil =>
    rw [hf] at hmem
    exact absurd hmem (by simp)
  | cons m ms =>
    rw [hf] at hmem
    exact List.mem_map.mpr ⟨l, hmem, rfl⟩

lemma enrichOne_unmatched (lookup : List DateLookupRow) (r : KafkaRecord)
    (h : ∀ l ∈ lookup, l.date ≠ toDateFromEpochMillis r.timestamp) :
    enrichOne lookup r = [{ record := r, date := none, week_part := none }] := by
  have hf : lookup.filter (fun x => toDateFromEpochMillis r.timestamp == x.date) = [] := by
    rw [List.filter_eq_nil_iff]
    intro l hl
    rw [beq_iff_eq]
    exact fun hc => h l hl (hc.symm)
  rw [enrichOne, hf]

/-- C6: the enrichment of the multiplexed source is a left outer join
keyed on the day derived from the record timestamp against the date_lookup
reference rows: every input record is kept (it yields at least one output
row), a record whose derived day matches a reference row is committed
carrying that row's date and week_part, and a record with no matching
reference day is still committed, with date and week_part null. -/
theorem c6_enrichment_left_join (records : List KafkaRecord) (lookup : List DateLookupRow)
    (r : KafkaRecord) (hr : r ∈ records) :
    (∃ e ∈ leftJoinDateLookup records lookup, e.record = r)
    ∧ (∀ l ∈ lookup, l.date = toDateFromEpochMillis r.timestamp →
        ({ record := r, date := some l.date, week_part := some l.week_part } :
          EnrichedKafkaRecord) ∈ leftJoinDateLookup records lookup)
    ∧ ((∀ l ∈ lookup, l.date ≠ toDateFromEpochMillis r.timestamp) →
        ({ record := r, date := none, week_part := none } : EnrichedKafkaRecord)
          ∈ leftJoinDateLookup records lookup) := by
  refine ⟨?_, ?_, ?_⟩
  · by_cases hm : ∃ l ∈ lookup, l.date = toDateFromEpochMillis r.timestamp
    · obtain ⟨l, hl, hd⟩ := hm
      exact ⟨{ record := r, date := some l.date, week_part := some l.week_part },
        enrichOne_mem_leftJoin records lookup r hr _ (enrichOne_matched lookup r l hl hd), rfl⟩
    · push_neg at hm
      refine ⟨{ record := r, date := none, week_part := none },
        enrichOne_mem_leftJoin records lookup r hr _ ?_, rfl⟩
      rw [enrichOne_unmatched lookup r hm]
      exact List.mem_singleton.mpr rfl
  · intro l hl hd
    exact enrichOne_mem_leftJoin records lookup r hr _ (enrichOne_matched lookup r l hl hd)
  · intro hm
    refine enrichOne_mem_leftJoin records lookup r hr _ ?_
    rw [enrichOne_unmatched lookup r hm]
    exact List.mem_singleton.mpr rfl

/-- A sample multiplexed record for the C6 witness: its timestamp lies on
day index 1 (86400000 milliseconds after the epoch). -/
def sampleKafkaRecord : KafkaRecord :=
  { key := "k", value := "v", topic := "bpm", partition := 0, offset := 0,
    timestamp := 86400000, load_time := 0, source_file := "f" }

/-- A date_lookup snapshot for the C6 witness holding the single day
index 1. -/
def sampleLookup : List DateLookupRow :=
  [{ date := 1, week_part := "wk" }]

/-- C6 witness: the left join evaluated on one concrete record and one
concrete reference row whose day matches. -/
theorem c6_enrichment_left_join_witness :
    (∃ e ∈ leftJoinDateLookup [sampleKafkaRecord] sampleLookup, e.record = sampleKafkaRecord)
    ∧ (∀ l ∈ sampleLookup, l.date = toDateFromEpochMillis sampleKafkaRecord.timestamp →
        ({ record := sampleKafkaRecord, date := some l.date, week_part := some l.week_part } :
          EnrichedKafkaRecord) ∈ leftJoinDateLookup [sampleKafkaRecord] sampleLookup)
    ∧ ((∀ l ∈ sampleLookup, l.date ≠ toDateFromEpochMillis sampleKafkaRecord.timestamp) →
        ({ record := sampleKafkaRecord, date := none, week_part := none } : EnrichedKafkaRecord)
          ∈ leftJoinDateLookup [sampleKafkaRecord] sampleLookup) :=
  c6_enrichment_left_join [sampleKafkaRecord] sampleLookup sampleKafkaRecord
    (List.mem_singleton.mpr rfl)

/-- The method names defined on the Bronze class (lines 7, 15, 49, 84,
120, 133, 139 of 04.bronze_layer.py). -/
def bronzeMethodNames : List String :=
  ["__init__", "consume_user_registrations", "consume_gym_logins",
   "consume_kafka_multiplex", "consume", "assert_count", "validate"]

/-- The attribute names Bronze.consume resolves on self, in call order
(lines 124-126). -/
def consumeCallTargets : List String :=
  ["consume_user_registration", "consume_gym_logins", "consume_kafka_multiplex"]

/-- C2: the first method consume calls on self, consume_user_registration,
is not a method defined on the Bronze class (the defined method is
consume_user_registrations), so the orchestration dispatch fails before
any pipeline is started. -/
theorem c2_consume_calls_missing_method :
    consumeCallTargets.head? = some "consume_user_registration"
    ∧ "consume_user_registration" ∉ bronzeMethodNames := by
  refine ⟨rfl, ?_⟩
  decide

/-- Python attribute resolution on a Bronze instance: a name defined on
the class resolves, any other name raises AttributeError. -/
def resolveBronzeAttr (name : String) : Except PyError Unit :=
  if name ∈ bronzeMethodNames then Except.ok ()
  else Except.error (PyError.attributeError "Bronze" name)

/-- Bronze.consume (lines 120-130): resolves and calls the three pipeline
methods in order.  Line 124 resolves consume_user_registration, a name the
class does not define, so every call raises AttributeError there.  Were it
reached, line 125 would call consume_gym_logins, and line 126 calls
consume_kafka_multiplex without its required topic argument, so topic is
bound to the once flag (rendered here as the Python boolean text), once
receives processing_time — a string, never equal to True, selecting the
continuous branch — and processing_time keeps its default of 5 seconds.
In finite mode the code would then await termination of the active
streams before returning. -/
def consume (b : BronzeInit) (once : Bool) (processing_time : String) :
    Except PyError Unit := do
  resolveBronzeAttr "consume_user_registration"
  _ ← consume_gym_logins b once processing_time
  _ ← consume_kafka_multiplex b (if once then "True" else "False") false "5 seconds"
  Except.ok ()

/-- Modelled from the spec: a raw input unit discovered by the autoloader
source, identified by a stable provenance identifier, together with the
records it yields (spec section 4.2; the discovery and dedupe machinery
lives in the external streaming engine, outside src/). -/
structure RawUnit : Type where
  id : String
  records : List Row
deriving DecidableEq

/-- Modelled from the spec: per-source checkpointed sink state, the
committed rows plus the durable already-seen set of unit identifiers
(spec sections 4.2 and 4.4). -/
structure CheckpointedTable : Type where
  rows : List Row
  seen : List String
deriving DecidableEq

/-- Modelled from the spec: ingesting one discovered unit; a unit whose
identifier is already in the checkpoint lineage commits nothing, otherwise
its records are appended and its identifier recorded. -/
def ingestUnit (t : CheckpointedTable) (u : RawUnit) : CheckpointedTable :=
  if u.id ∈ t.seen then t
  else { rows := t.rows ++ u.records, seen := t.seen ++ [u.id] }

/-- Modelled from the spec: one finite (availableNow) pass of a pipeline,
draining the currently discoverable backlog in discovery order. -/
def runFinite (t : CheckpointedTable) : List RawUnit → CheckpointedTable
  | [] => t
  | u :: us => runFinite (ingestUnit t u) us

lemma seen_mono (t : CheckpointedTable) (us : List RawUnit) (x : String)
    (hx : x ∈ t.seen) : x ∈ (runFinite t us).seen := by
  induction us generalizing t with
  | nil => exact hx
  | cons u us ih =>
    rw [runFinite]
    refine ih (ingestUnit t u) ?_
    rw [ingestUnit]
    split
    · exact hx
    · exact List.mem_append_left _ hx

lemma seen_after_run (t : CheckpointedTable) (us : List RawUnit) (u : RawUnit)
    (hu : u ∈ us) : u.id ∈ (runFinite t us).seen := by
  induction us generalizing t with
  | nil => exact absurd hu (by simp)
  | cons v vs ih =>
    rw [runFinite]
    rcases List.mem_cons.mp hu with h1 | h2
    · subst h1
      refine seen_mono (ingestUnit t u) vs u.id ?_
      rw [ingestUnit]
      split
      · assumption
      · exact List.mem_append_right _ (List.mem_singleton.mpr rfl)
    · exact ih (ingestUnit t v) h2

lemma runFinite_id_of_all_seen (t : CheckpointedTable) (us : List RawUnit)
    (h : ∀ u ∈ us, u.id ∈ t.seen) : runFinite t us = t := by
  induction us with
  | nil => rfl
  | cons u vs ih =>
    rw [runFinite]
    have hu : ingestUnit t u = t := by
      rw [ingestUnit]
      split
      · rfl
      · exact absurd (h u (List.mem_cons_self u vs)) (by assumption)
    rw [hu]
    exact ih (fun v hv => h v (List.mem_cons_of_mem u hv))

lemma runFinite_idempotent (t : CheckpointedTable) (us : List RawUnit) :
    runFinite (runFinite t us) us = runFinite t us :=
  runFinite_id_of_all_seen (runFinite t us) us
    (fun u hu => seen_after_run t us u hu)

/-- C9 (code bug): every invocation of consume raises AttributeError at
its first dispatch, so a finite run commits nothing and a re-run leaves
the row counts unchanged only vacuously — the claimed already-seen-units
mechanism never engages; the checkpointed dedupe of the external engine,
modelled from the spec, is idempotent as the claim describes: a second
finite pass over the same units finds every unit already in the seen set
and leaves the committed rows of the sink unchanged. -/
theorem c9_consume_idempotence_code_bug (b : BronzeInit) (once : Bool) (pt : String)
    (t : CheckpointedTable) (us : List RawUnit) :
    consume b once pt
      = Except.error (PyError.attributeError "Bronze" "consume_user_registration")
    ∧ runFinite (runFinite t us) us = runFinite t us
    ∧ (runFinite (runFinite t us) us).rows.length = (runFinite t us).rows.length := by
  refine ⟨rfl, runFinite_idempotent t us, by rw [runFinite_idempotent t us]⟩
